import Mathlib

/-!
Shallow embedding of the client-side task-progression state machine of
`src/src/app/page.js` (the "AI Fella" guided-task page).

The React component keeps its session in `useState` hooks (`goal`, `taskId`,
`steps`, `currentStep`, `currentIndex`, `history`, `image`, `textNote`,
`options`).  Each transition handler (`startTask`, `verifyStep`, `doneStep`,
`applyOption`) reads the captured pre-transition values of those hooks and
issues a batch of `setX` calls; a single invocation therefore acts as a pure
function from the old session and the parsed gateway response to the new
session, which is what we embed.  The display-only `message` string and the
camera states are not part of the task session and are not modelled.

JavaScript truthiness conventions that the handlers rely on are made
explicit: `undefined`/`null` and `""` are falsy for string fields, while an
array (even an empty one) is truthy, so optional response fields become
`Option` values with the corresponding tests.  The image is only ever tested
for presence, so it is modelled as a `Bool`.
-/

/-- The evidence shape recorded in a history entry:
`{ text: textNote || null, image: image ? true : false }`. -/
structure EvidenceShape where
  text : Option String
  image : Bool
deriving Repr, DecidableEq

/-- The result recorded in a history entry: `{ passed, reason }`. -/
structure VerifyResult where
  passed : Bool
  reason : Option String
deriving Repr, DecidableEq

/-- One entry of the append-only `history` list:
`{ step, evidence, result, ts }` (page.js lines 189-197 and 276-284). -/
structure HistoryEntry where
  step : String
  evidence : EvidenceShape
  result : VerifyResult
  ts : String
deriving Repr, DecidableEq

/-- The task session: the `useState` hooks of the component that make up the
authoritative local view (page.js lines 7-17), without the display-only
`message`.  `image : Bool` records whether an image file is attached. -/
structure Session where
  goal : String
  taskId : String
  steps : List String
  currentStep : String
  currentIndex : Nat
  history : List HistoryEntry
  image : Bool
  textNote : String
  options : List String
deriving Repr, DecidableEq

/-- A parsed `verify-step` response body.  `done` and `passed` are truthiness
tests in the source, so absent fields are `false`; the optional fields keep
their absence explicit. -/
structure VerifyResponse where
  done : Bool
  history : Option (List HistoryEntry)
  passed : Bool
  reason : Option String
  nextSteps : Option (List String)
  nextStep : Option String
  options : Option (List String)
deriving Repr, DecidableEq

/-- A parsed `mark-step-done` response body. -/
structure DoneResponse where
  done : Bool
  history : Option (List HistoryEntry)
deriving Repr, DecidableEq

/-- A parsed `apply-action` response body. -/
structure ActionResponse where
  steps : Option (List String)
  currentStep : Option String
deriving Repr, DecidableEq

/-- A parsed `start-task` response body. -/
structure StartResponse where
  taskId : Option String
  goal : Option String
  steps : Option (List String)
  currentStep : Option String
deriving Repr, DecidableEq

/-- JavaScript `String.prototype.trim`: strip leading and trailing whitespace.
Written on the character list so that it evaluates by kernel reduction
(`String.trim` is defined by well-founded recursion on byte positions and
does not). -/
def trimStr (s : String) : String :=
  ⟨((s.data.dropWhile Char.isWhitespace).reverse.dropWhile Char.isWhitespace).reverse⟩

/-- JavaScript `steps[i] || ""`: an out-of-range access (`undefined`) and the
empty string are both falsy, so both yield `""`. -/
def jsGet (l : List String) (i : Nat) : String :=
  l.getD i ""

/-- Truthiness of an optional string field: `undefined`, `null` and `""` are
falsy, every other string is truthy. -/
def strTruthy : Option String → Bool
  | none => false
  | some s => s != ""

/-- JavaScript `Array.prototype.indexOf` on a string array: the index of the
first occurrence, `-1` when the element does not occur. -/
def jsIndexOf : List String → String → Int
  | [], _ => -1
  | a :: l, x =>
    if a == x then 0
    else if jsIndexOf l x < 0 then -1 else jsIndexOf l x + 1

/-- The functional update passed to `setSteps` on the fallback path of
`verifyStep` (page.js lines 214-217): append `nextStep` unless it already
occurs anywhere in the list. -/
def appendIfMissing (l : List String) (x : String) : List String :=
  if l.contains x then l else l ++ [x]

/-- The evidence guard at the top of `verifyStep` (page.js lines 158-161):
the request is rejected when `!image && !textNote.trim()`, i.e. evidence is
accepted when an image is attached or the trimmed text note is non-empty. -/
def evidenceAccepted (image : Bool) (textNote : String) : Bool :=
  image || trimStr textNote != ""

/-- The history entry `verifyStep` appends on a response without `done`
(page.js lines 189-197), built from the captured pre-transition state. -/
def mkVerifyEntry (s : Session) (r : VerifyResponse) (ts : String) : HistoryEntry :=
  { step := s.currentStep
    evidence := { text := if s.textNote == "" then none else some s.textNote
                  image := s.image }
    result := { passed := r.passed, reason := r.reason }
    ts := ts }

/-- The history entry `doneStep` appends on a response without `done`
(page.js lines 276-284); its result is the fixed synthetic
`{ passed: true, reason: "Step marked as done" }`. -/
def doneEntry (s : Session) (ts : String) : HistoryEntry :=
  { step := s.currentStep
    evidence := { text := some "Step marked as done without verification"
                  image := false }
    result := { passed := true, reason := some "Step marked as done" }
    ts := ts }

/-- Reconciliation of a parsed `verify-step` response into the session
(page.js lines 164 and 179-243).  `options` is cleared before the request is
sent (line 164); all reads (`currentStep`, `currentIndex`, `steps`, `history`,
`image`, `textNote`) are the captured pre-transition values; the final
`if (data.passed)` clears the attached evidence (lines 240-243). -/
def applyVerify (s : Session) (r : VerifyResponse) (ts : String) : Session :=
  let s0 : Session := { s with options := [] }
  let s1 : Session :=
    if r.done then
      { s0 with history := r.history.getD s.history
                steps := []
                currentStep := ""
                currentIndex := 0
                options := [] }
    else
      let s2 : Session := { s0 with history := s.history ++ [mkVerifyEntry s r ts] }
      if r.passed then
        if r.nextSteps.isSome then
          let l := r.nextSteps.getD []
          { s2 with steps := l, currentIndex := 0, currentStep := jsGet l 0 }
        else if strTruthy r.nextStep then
          let x := r.nextStep.getD ""
          if 0 ≤ jsIndexOf s.steps x then
            { s2 with currentIndex := (jsIndexOf s.steps x).toNat, currentStep := x }
          else
            { s2 with steps := appendIfMissing s.steps x, currentStep := x }
        else
          { s2 with currentIndex := s.currentIndex + 1
                    currentStep := jsGet s.steps (s.currentIndex + 1) }
      else
        let s3 : Session :=
          if r.nextSteps.isSome then
            let l := r.nextSteps.getD []
            { s2 with steps := l, currentIndex := 0, currentStep := jsGet l 0 }
          else s2
        { s3 with options := r.options.getD [] }
  if r.passed then { s1 with image := false, textNote := "" } else s1

/-- `verifyStep` (page.js lines 156-250).  The Boolean is whether a request
was sent to the remote gateway: when the evidence guard fails the handler
returns before the fetch and the session is unchanged (only the display
message is set). -/
def verifyStep (s : Session) (r : VerifyResponse) (ts : String) : Bool × Session :=
  if evidenceAccepted s.image s.textNote then (true, applyVerify s r ts)
  else (false, s)

/-- `doneStep` (page.js lines 252-302): on `done` the service payload is
adopted, otherwise the fixed synthetic entry is appended and the local index
incremented; the attached evidence is cleared unconditionally (lines 294-295). -/
def doneStep (s : Session) (r : DoneResponse) (ts : String) : Session :=
  let s0 : Session := { s with options := [] }
  let s1 : Session :=
    if r.done then
      { s0 with history := r.history.getD s.history
                steps := []
                currentStep := ""
                currentIndex := 0
                options := [] }
    else
      { s0 with history := s.history ++ [doneEntry s ts]
                currentIndex := s.currentIndex + 1
                currentStep := jsGet s.steps (s.currentIndex + 1) }
  { s1 with image := false, textNote := "" }

/-- JavaScript `(data.steps && data.steps[0]) || ""`: an absent `steps` is
falsy; a present array (even empty) is truthy and is indexed. -/
def stepsHead : Option (List String) → String
  | some l => jsGet l 0
  | none => ""

/-- JavaScript `data.currentStep || (data.steps && data.steps[0]) || ""`. -/
def respCurrentStep (cs : Option String) (st : Option (List String)) : String :=
  if strTruthy cs then cs.getD "" else stepsHead st

/-- `applyOption` (page.js lines 304-343): an empty action is rejected by the
`if (!opt) return` guard; `"quit"` and `"restart"` have dedicated branches;
any other action only updates the display message. -/
def applyOption (s : Session) (opt : String) (r : ActionResponse) : Session :=
  if opt == "" then s
  else if opt == "quit" then
    { s with goal := ""
             taskId := ""
             steps := []
             currentStep := ""
             currentIndex := 0
             history := []
             options := [] }
  else if opt == "restart" then
    { s with steps := r.steps.getD []
             currentStep := respCurrentStep r.currentStep r.steps
             currentIndex := 0
             history := []
             options := [] }
  else s

/-- `startTask` (page.js lines 126-154): a blank task is rejected before any
request; on a successful response the session is rebuilt wholesale. -/
def startTask (s : Session) (task : String) (r : StartResponse) : Session :=
  if trimStr task == "" then s
  else
    { s with taskId := r.taskId.getD ""
             goal := if strTruthy r.goal then r.goal.getD "" else task
             steps := r.steps.getD []
             currentIndex := 0
             currentStep := respCurrentStep r.currentStep r.steps
             history := []
             options := [] }

/-! Concrete instances used by the closed witness and counterexample
theorems below. -/

/-- A sample history entry for populating concrete sessions. -/
def sampleEntry : HistoryEntry :=
  { step := "boil water"
    evidence := { text := some "done", image := false }
    result := { passed := true, reason := none }
    ts := "t0" }

/-- A concrete mid-task session. -/
def demoSession : Session :=
  { goal := "make tea"
    taskId := "id1"
    steps := ["boil water", "steep tea", "serve"]
    currentStep := "boil water"
    currentIndex := 0
    history := [sampleEntry]
    image := false
    textNote := "ok"
    options := ["retry"] }

/-- A minimal passing verify response with every optional field absent. -/
def passResponse : VerifyResponse :=
  { done := false, history := none, passed := true, reason := none,
    nextSteps := none, nextStep := none, options := none }

/-- A verify response signalling completion. -/
def vDone : VerifyResponse := { passResponse with done := true }

/-- A passing verify response naming a step already in `demoSession.steps`. -/
def vNamed : VerifyResponse := { passResponse with nextStep := some "serve" }

/-- A passing verify response naming a step absent from `demoSession.steps`. -/
def vNew : VerifyResponse := { passResponse with nextStep := some "fetch cups" }

/-- A failing verify response carrying an option list. -/
def vFail : VerifyResponse :=
  { passResponse with passed := false, options := some ["retry", "skip"] }

/-- A failing verify response carrying a replacement plan. -/
def vFailReplan : VerifyResponse :=
  { passResponse with passed := false, nextSteps := some ["x", "y"] }

/-- A mark-done response without completion. -/
def dNone : DoneResponse := { done := false, history := none }

/-- An apply-action response with no payload. -/
def aNone : ActionResponse := { steps := none, currentStep := none }

/-- A session whose `taskId` is empty but whose evidence is valid. -/
def noIdSession : Session := { demoSession with taskId := "", image := true }

/-- A session with no image and a blank text note. -/
def blankEvidenceSession : Session :=
  { demoSession with image := false, textNote := "   " }

/-- A concrete session at `currentIndex = 1`. -/
def midSession : Session :=
  { demoSession with currentIndex := 1, currentStep := "steep tea" }

/-! Helper lemmas about the JavaScript-style list operations. -/

/-- `indexOf` is non-negative exactly when the element occurs in the list. -/
theorem jsIndexOf_nonneg_iff (l : List String) (x : String) :
    0 ≤ jsIndexOf l x ↔ x ∈ l := by
  induction l with
  | nil => simp [jsIndexOf]
  | cons a l ih =>
    by_cases hax : a == x
    · have ha : a = x := eq_of_beq hax
      simp [jsIndexOf, hax, ha]
    · have hne : x ≠ a := fun h => hax (by simp [h])
      by_cases hlt : jsIndexOf l x < 0
      · simp only [jsIndexOf, hax, Bool.false_eq_true, ite_false, if_pos hlt, List.mem_cons]
        rw [← ih]
        constructor
        · intro h
          omega
        · rintro (h | h)
          · exact absurd h hne
          · omega
      · simp only [jsIndexOf, hax, Bool.false_eq_true, ite_false, if_neg hlt, List.mem_cons]
        rw [← ih]
        constructor
        · intro _
          right
          omega
        · intro _
          omega

/-- A non-negative `indexOf` result points at the element looked for. -/
theorem jsIndexOf_getD (l : List String) (x : String) (h : 0 ≤ jsIndexOf l x) :
    l.getD (jsIndexOf l x).toNat "" = x := by
  induction l with
  | nil => simp [jsIndexOf] at h
  | cons a l ih =>
    by_cases hax : a == x
    · have ha : a = x := eq_of_beq hax
      simp [jsIndexOf, hax, ha]
    · by_cases hlt : jsIndexOf l x < 0
      · simp only [jsIndexOf, hax, Bool.false_eq_true, ite_false, if_pos hlt] at h
        omega
      · have h0 : 0 ≤ jsIndexOf l x := by omega
        have ht : (jsIndexOf l x + 1).toNat = (jsIndexOf l x).toNat + 1 := by omega
        simp only [jsIndexOf, hax, Bool.false_eq_true, ite_false, if_neg hlt, ht,
          List.getD_cons_succ]
        exact ih h0

/-- Reading past the end of the list yields the empty string. -/
theorem jsGet_past_end (l : List String) (i : Nat) (h : l.length ≤ i) :
    jsGet l i = "" := by
  unfold jsGet
  rw [List.getD_eq_default]
  omega

/-- `contains` is `false` for an element that is not a member. -/
theorem not_contains_of_not_mem {l : List String} {x : String} (h : x ∉ l) :
    l.contains x = false := by
  simpa using h

/-! The claims. -/

/-- Claim C1: in `verifyStep`, for every response with `done == true` the
session becomes terminal regardless of `passed`: `history` is replaced by
the service-provided history when present (otherwise the local history is
kept), `steps` and `currentStep` are cleared, `currentIndex` is set to `0`,
and `options` is cleared. -/
theorem C1_done_terminal (s : Session) (r : VerifyResponse) (ts : String)
    (hd : r.done = true) :
    (applyVerify s r ts).steps = [] ∧
    (applyVerify s r ts).currentStep = "" ∧
    (applyVerify s r ts).currentIndex = 0 ∧
    (applyVerify s r ts).options = [] ∧
    (∀ l, r.history = some l → (applyVerify s r ts).history = l) ∧
    (r.history = none → (applyVerify s r ts).history = s.history) := by
  refine ⟨?_, ?_, ?_, ?_, fun l hl => ?_, fun hl => ?_⟩ <;>
    cases hp : r.passed <;> simp [applyVerify, hd, hp, *]

/-- Witness for C1 at a concrete session and a `done` response without a
service history. -/
theorem C1_witness :
    (applyVerify demoSession vDone "t1").steps = [] ∧
    (applyVerify demoSession vDone "t1").history = demoSession.history :=
  ⟨(C1_done_terminal demoSession vDone "t1" rfl).1,
    (C1_done_terminal demoSession vDone "t1" rfl).2.2.2.2.2 rfl⟩

/-- Claim C2: in `verifyStep`, for a response with `done` absent/false,
`passed == true` and neither a `nextSteps` list nor a truthy `nextStep`
string, `currentIndex` is incremented by exactly one and `currentStep` is
recomputed from the unchanged local `steps` list at the new index, becoming
empty when the new index is past the end of the list. -/
theorem C2_plain_increment (s : Session) (r : VerifyResponse) (ts : String)
    (hd : r.done = false) (hp : r.passed = true)
    (hns : r.nextSteps = none) (hn : strTruthy r.nextStep = false) :
    (applyVerify s r ts).currentIndex = s.currentIndex + 1 ∧
    (applyVerify s r ts).steps = s.steps ∧
    (applyVerify s r ts).currentStep = jsGet s.steps (s.currentIndex + 1) ∧
    (s.steps.length ≤ s.currentIndex + 1 → (applyVerify s r ts).currentStep = "") := by
  refine ⟨?_, ?_, ?_, fun h => ?_⟩ <;> simp [applyVerify, hd, hp, hns, hn]
  exact jsGet_past_end _ _ h

/-- Witness for C2 at a concrete session and a bare passing response. -/
theorem C2_witness :
    (applyVerify demoSession passResponse "t1").currentIndex = demoSession.currentIndex + 1 ∧
    (applyVerify demoSession passResponse "t1").currentStep =
      jsGet demoSession.steps (demoSession.currentIndex + 1) :=
  ⟨(C2_plain_increment demoSession passResponse "t1" rfl rfl rfl rfl).1,
    (C2_plain_increment demoSession passResponse "t1" rfl rfl rfl rfl).2.2.1⟩

/-- Claim C3: in `verifyStep`, for a passing response with no `nextSteps`
list and a `nextStep` string: if that exact string occurs in the current
local `steps` list, `currentIndex` jumps to its position (the element at the
new index is that string — any position, not just `currentIndex + 1`) and
`currentStep` becomes that string; if it does not occur, the string is
appended to the local `steps` list without creating a duplicate (it then
occurs exactly once) and is set as `currentStep`. -/
theorem C3_named_next_step (s : Session) (r : VerifyResponse) (ts : String) (x : String)
    (hd : r.done = false) (hp : r.passed = true) (hns : r.nextSteps = none)
    (hx : r.nextStep = some x) (hxe : x ≠ "") :
    (x ∈ s.steps →
      (applyVerify s r ts).steps = s.steps ∧
      (applyVerify s r ts).currentStep = x ∧
      (applyVerify s r ts).currentIndex < s.steps.length ∧
      jsGet s.steps (applyVerify s r ts).currentIndex = x) ∧
    (x ∉ s.steps →
      (applyVerify s r ts).steps = s.steps ++ [x] ∧
      (applyVerify s r ts).currentStep = x ∧
      (applyVerify s r ts).steps.count x = 1) := by
  have hxt : strTruthy (some x) = true := by simp [strTruthy, hxe]
  constructor
  · intro hmem
    have hnn : 0 ≤ jsIndexOf s.steps x := (jsIndexOf_nonneg_iff s.steps x).mpr hmem
    have hget := jsIndexOf_getD s.steps x hnn
    have hlen : (jsIndexOf s.steps x).toNat < s.steps.length := by
      by_contra hge
      rw [List.getD_eq_default] at hget
      · exact hxe hget.symm
      · omega
    have hget2 : jsGet s.steps (jsIndexOf s.steps x).toNat = x := hget
    refine ⟨?_, ?_, ?_, ?_⟩
    · simp [applyVerify, hd, hp, hns, hx, hxt, hnn]
    · simp [applyVerify, hd, hp, hns, hx, hxt, hnn]
    · simp [applyVerify, hd, hp, hns, hx, hxt, hnn, hlen]
    · simp [applyVerify, hd, hp, hns, hx, hxt, hnn, hget2]
  · intro hmem
    have hneg : ¬ 0 ≤ jsIndexOf s.steps x := by
      rw [jsIndexOf_nonneg_iff]
      exact hmem
    have hc : s.steps.contains x = false := not_contains_of_not_mem hmem
    refine ⟨?_, ?_, ?_⟩
    · simp [applyVerify, hd, hp, hns, hx, hxt, hneg, appendIfMissing, hc, hmem]
    · simp [applyVerify, hd, hp, hns, hx, hxt, hneg, appendIfMissing, hc, hmem]
    · simp [applyVerify, hd, hp, hns, hx, hxt, hneg, appendIfMissing, hc, hmem,
        List.count_append, List.count_eq_zero.mpr hmem]

/-- Witness for C3 at a concrete session whose `steps` contain the named
next step `"serve"` at position 2. -/
theorem C3_witness :
    (applyVerify demoSession vNamed "t1").currentStep = "serve" ∧
    jsGet demoSession.steps (applyVerify demoSession vNamed "t1").currentIndex = "serve" :=
  ⟨((C3_named_next_step demoSession vNamed "t1" "serve" rfl rfl rfl rfl
      (by decide)).1 (by decide)).2.1,
    ((C3_named_next_step demoSession vNamed "t1" "serve" rfl rfl rfl rfl
      (by decide)).1 (by decide)).2.2.2⟩

/-- Claim C4 counterexample: a failing response (`done` absent, `passed ==
false`) that carries a `nextSteps` replacement list does change
`currentIndex` and `currentStep` (the plan is adopted and reset to its
head), refuting the unconditional frame property. -/
theorem C4_counterexample :
    (applyVerify midSession vFailReplan "t1").currentIndex ≠ midSession.currentIndex ∧
    (applyVerify midSession vFailReplan "t1").currentStep ≠ midSession.currentStep ∧
    (applyVerify midSession vFailReplan "t1").currentIndex = 0 ∧
    (applyVerify midSession vFailReplan "t1").currentStep = "x" := by decide

/-- Claim C4 as amended: for a response with `done` absent/false, `passed ==
false` and no `nextSteps` replacement list, `currentIndex`, `currentStep`
and `steps` are unchanged and `options` is replaced by the response's
option list (or emptied when that list is absent). -/
theorem C4_failed_frame (s : Session) (r : VerifyResponse) (ts : String)
    (hd : r.done = false) (hp : r.passed = false) (hns : r.nextSteps = none) :
    (applyVerify s r ts).currentIndex = s.currentIndex ∧
    (applyVerify s r ts).currentStep = s.currentStep ∧
    (applyVerify s r ts).steps = s.steps ∧
    (∀ l, r.options = some l → (applyVerify s r ts).options = l) ∧
    (r.options = none → (applyVerify s r ts).options = []) := by
  refine ⟨?_, ?_, ?_, fun l hl => ?_, fun hl => ?_⟩ <;>
    simp [applyVerify, hd, hp, hns, *]

/-- Witness for C4 (amended) at a concrete session and a failing response
with an option list. -/
theorem C4_witness :
    (applyVerify midSession vFail "t1").currentIndex = midSession.currentIndex ∧
    (applyVerify midSession vFail "t1").currentStep = midSession.currentStep ∧
    (applyVerify midSession vFail "t1").options = ["retry", "skip"] :=
  ⟨(C4_failed_frame midSession vFail "t1" rfl rfl rfl).1,
    (C4_failed_frame midSession vFail "t1" rfl rfl rfl).2.1,
    (C4_failed_frame midSession vFail "t1" rfl rfl rfl).2.2.2.1 ["retry", "skip"] rfl⟩

/-- Claim C5 counterexample: `applyOption "quit"` empties `history`, so over
sequences that include `applyOption` the history length strictly decreases,
refuting monotone non-decrease over every sequence of transitions. -/
theorem C5_counterexample :
    (applyOption demoSession "quit" aNone).history.length < demoSession.history.length := by
  decide

/-- Claim C5 as amended: `verifyStep` and `doneStep` with `done` absent/false
each append exactly one entry, preserving the stored order of the existing
entries (any most-recent-first view is a display-time transform); a `done`
response replaces history wholesale with the service payload when present;
`applyOption "quit"`, `applyOption "restart"` and `startTask` reset history
to empty. -/
theorem C5_history_discipline (s : Session) (rv : VerifyResponse) (rd : DoneResponse)
    (ra : ActionResponse) (rs : StartResponse) (task ts : String) :
    (rv.done = false → (applyVerify s rv ts).history = s.history ++ [mkVerifyEntry s rv ts]) ∧
    (rv.done = true → (applyVerify s rv ts).history = rv.history.getD s.history) ∧
    (rd.done = false → (doneStep s rd ts).history = s.history ++ [doneEntry s ts]) ∧
    (rd.done = true → (doneStep s rd ts).history = rd.history.getD s.history) ∧
    (applyOption s "quit" ra).history = [] ∧
    (applyOption s "restart" ra).history = [] ∧
    (trimStr task ≠ "" → (startTask s task rs).history = []) := by
  refine ⟨fun h => ?_, fun h => ?_, fun h => ?_, fun h => ?_, ?_, ?_, fun h => ?_⟩
  · cases hp : rv.passed <;> simp [applyVerify, h, hp] <;> (repeat' split) <;> simp
  · cases hp : rv.passed <;> simp [applyVerify, h, hp]
  · simp [doneStep, h]
  · simp [doneStep, h]
  · rfl
  · rfl
  · have hb : (trimStr task == "") = false := by simpa using h
    simp [startTask, hb]

/-- Claim C6 counterexample: `verifyStep` does not check `taskId`: with an
empty `taskId` but valid evidence a request is still sent to the gateway and
the session changes. -/
theorem C6_counterexample :
    noIdSession.taskId = "" ∧
    (verifyStep noIdSession passResponse "t1").1 = true ∧
    (verifyStep noIdSession passResponse "t1").2 ≠ noIdSession := by decide

/-- Claim C6 as amended: `verifyStep` requires valid evidence as a
precondition — whenever the evidence is invalid (no image and blank trimmed
text note) it fails without sending any request to the remote gateway and
without changing session state; an empty `taskId` is not checked locally. -/
theorem C6_invalid_evidence_no_request (s : Session) (r : VerifyResponse) (ts : String)
    (h : evidenceAccepted s.image s.textNote = false) :
    (verifyStep s r ts).1 = false ∧ (verifyStep s r ts).2 = s := by
  simp [verifyStep, h]

/-- Witness for C6 (amended) at a concrete session with no image and a
whitespace-only text note. -/
theorem C6_witness :
    (verifyStep blankEvidenceSession passResponse "t1").1 = false ∧
    (verifyStep blankEvidenceSession passResponse "t1").2 = blankEvidenceSession :=
  C6_invalid_evidence_no_request blankEvidenceSession passResponse "t1" (by decide)

/-- Claim C7: evidence validation rejects exactly the inputs where the image
is absent and the trimmed text note is empty: `(image=None, text="")` and
`(image=None, text="   ")` are rejected before any network call, while
`(image=None, text="ok")` and `(image=file, text="")` are accepted; in
general a request is sent if and only if the evidence is accepted. -/
theorem C7_evidence_validation :
    evidenceAccepted false "" = false ∧
    evidenceAccepted false "   " = false ∧
    evidenceAccepted false "ok" = true ∧
    evidenceAccepted true "" = true ∧
    (∀ img t, evidenceAccepted img t = false ↔ img = false ∧ trimStr t = "") ∧
    (∀ s r ts, (verifyStep s r ts).1 = evidenceAccepted s.image s.textNote) := by
  refine ⟨by decide, by decide, by decide, by decide, fun img t => ?_, fun s r ts => ?_⟩
  · simp [evidenceAccepted]
  · by_cases h : evidenceAccepted s.image s.textNote <;> simp [verifyStep, h]

/-- Claim C8 counterexample: the synthetic result `doneStep` records has
reason `"Step marked as done"`, not `"manually marked done"`. -/
theorem C8_counterexample :
    (doneStep demoSession dNone "t1").history.getLast? = some (doneEntry demoSession "t1") ∧
    (doneEntry demoSession "t1").result.reason = some "Step marked as done" ∧
    (doneEntry demoSession "t1").result.reason ≠ some "manually marked done" := by decide

/-- Claim C8 as amended: in `doneStep`, for every response that does not
report completion, a `HistoryEntry` with the fixed synthetic result
`passed = true` and reason `"Step marked as done"` is appended, and then
`currentIndex` is incremented by exactly one with `currentStep` read from
the unchanged local `steps` list at the new position; when the service
reports `done`, its done/history payload is adopted instead. -/
theorem C8_mark_done (s : Session) (r : DoneResponse) (ts : String) :
    (r.done = false →
      (doneStep s r ts).history = s.history ++ [doneEntry s ts] ∧
      (doneEntry s ts).result.passed = true ∧
      (doneEntry s ts).result.reason = some "Step marked as done" ∧
      (doneStep s r ts).currentIndex = s.currentIndex + 1 ∧
      (doneStep s r ts).currentStep = jsGet s.steps (s.currentIndex + 1) ∧
      (doneStep s r ts).steps = s.steps) ∧
    (r.done = true →
      (doneStep s r ts).history = r.history.getD s.history ∧
      (doneStep s r ts).steps = [] ∧
      (doneStep s r ts).currentStep = "" ∧
      (doneStep s r ts).currentIndex = 0) := by
  constructor
  · intro h
    refine ⟨?_, rfl, rfl, ?_, ?_, ?_⟩ <;> simp [doneStep, h]
  · intro h
    refine ⟨?_, ?_, ?_, ?_⟩ <;> simp [doneStep, h]

/-- Claim C9: `applyOption "quit"` always wipes the entire session back to
the "no task" state — `goal`, `taskId`, `steps`, `history` and `options` all
become empty (`currentStep` cleared, `currentIndex` zeroed) — regardless of
the prior session state and regardless of the response payload. -/
theorem C9_quit_wipes (s : Session) (r : ActionResponse) :
    (applyOption s "quit" r).goal = "" ∧
    (applyOption s "quit" r).taskId = "" ∧
    (applyOption s "quit" r).steps = [] ∧
    (applyOption s "quit" r).history = [] ∧
    (applyOption s "quit" r).options = [] ∧
    (applyOption s "quit" r).currentStep = "" ∧
    (applyOption s "quit" r).currentIndex = 0 :=
  ⟨rfl, rfl, rfl, rfl, rfl, rfl, rfl⟩

/-- Claim C10: on the fallback path of `verifyStep` (`passed == true`, a
`nextStep` string not found in the local `steps`), `currentIndex` retains
its prior value unchanged — only `currentStep` and the `steps` list are
updated — and the `setSteps` updater skips the append whenever the string
already occurs anywhere in the list, not only when it is last. -/
theorem C10_fallback_keeps_index (s : Session) (r : VerifyResponse) (ts : String) (x : String)
    (hd : r.done = false) (hp : r.passed = true) (hns : r.nextSteps = none)
    (hx : r.nextStep = some x) (hxe : x ≠ "") (hmem : x ∉ s.steps) :
    (applyVerify s r ts).currentIndex = s.currentIndex ∧
    (applyVerify s r ts).steps = appendIfMissing s.steps x ∧
    (applyVerify s r ts).steps = s.steps ++ [x] ∧
    (applyVerify s r ts).currentStep = x ∧
    (∀ l y, y ∈ l → appendIfMissing l y = l) := by
  have hxt : strTruthy (some x) = true := by simp [strTruthy, hxe]
  have hneg : ¬ 0 ≤ jsIndexOf s.steps x := by
    rw [jsIndexOf_nonneg_iff]
    exact hmem
  have hc : s.steps.contains x = false := not_contains_of_not_mem hmem
  refine ⟨?_, ?_, ?_, ?_, fun l y hy => ?_⟩
  · simp [applyVerify, hd, hp, hns, hx, hxt, hneg]
  · simp [applyVerify, hd, hp, hns, hx, hxt, hneg, appendIfMissing, hc, hmem]
  · simp [applyVerify, hd, hp, hns, hx, hxt, hneg, appendIfMissing, hc, hmem]
  · simp [applyVerify, hd, hp, hns, hx, hxt, hneg]
  · simp [appendIfMissing, hy]

/-- Witness for C10 at a concrete session and a passing response naming a
step not in the local list. -/
theorem C10_witness :
    (applyVerify demoSession vNew "t1").currentIndex = demoSession.currentIndex ∧
    (applyVerify demoSession vNew "t1").steps = demoSession.steps ++ ["fetch cups"] :=
  ⟨(C10_fallback_keeps_index demoSession vNew "t1" "fetch cups" rfl rfl rfl rfl
      (by decide) (by decide)).1,
    (C10_fallback_keeps_index demoSession vNew "t1" "fetch cups" rfl rfl rfl rfl
      (by decide) (by decide)).2.2.1⟩
